import Mathlib

/-!
Verification development for the object-geolocation core of OCML-ACV2
(`acvmlpy/ocml/acvml.py`, `acvmlpy/ocml/acvgis.py`, `acvmlpy/acvgis_old.py`).

Python floats are modelled as rationals where the code only adds, compares
and rounds (angle arithmetic, cardinal-sector lookup, cluster labels), and
as reals where the code is trigonometric (bearing computation, pairwise
triangulation).  Python statements that can raise are modelled in an
`Except PyErr` error monad; a statement with no surrounding `try` block is
modelled by letting the error propagate through the monad, which is exactly
what the source does (there is no `try`/`except` anywhere in the
triangulation code).
-/

/-- The Python exception kinds that the embedded fragments can raise. -/
inductive PyErr
  | zeroDivisionError
  | statisticsError
  | valueError
  | keyError
  deriving DecidableEq

/-! ### `acvml.CheckDegrees` (acvml.py lines 132-150)

```python
sumdeg = x + y
if sumdeg > 360:
    sumdeg = sumdeg - 360
return sumdeg
```
-/

/-- `acvml.CheckDegrees`: degree addition with a single wraparound
subtraction applied only when the sum exceeds 360. -/
def CheckDegrees (x y : ℚ) : ℚ :=
  let sumdeg := x + y
  if sumdeg > 360 then sumdeg - 360 else sumdeg

/-! ### Cluster identifier assignment
(`acvgis.CreatePointClusters` step 2, acvgis.py lines 549-566, and
`acvclusters.create_clusterUUID`, acvgis_old.py lines 552-580)

```python
clist = sorted({row[0] for row in cursor})
clist.remove(-1)              # raises ValueError when -1 is absent
fcdict = {}
for v in clist:
    fcdict[v] = str(uuid.uuid4())
for row in cursor:            # update cursor
    if row[0] > 0:
        row[1] = fcdict[row[0]]
```
-/

/-- Ordered insertion of an integer into a list (helper for the model of
Python `sorted`). -/
def insertSorted (a : ℤ) : List ℤ → List ℤ
  | [] => [a]
  | b :: t => if a ≤ b then a :: b :: t else b :: insertSorted a t

/-- Ascending insertion sort on integer lists (model of Python `sorted`;
stability is irrelevant because it is applied to a duplicate-free list). -/
def sortInts : List ℤ → List ℤ
  | [] => []
  | a :: t => insertSorted a (sortInts t)

/-- `sorted({...})`: the ascending list of the distinct labels occurring in
the cursor rows. -/
def sortedDistinct (l : List ℤ) : List ℤ := sortInts l.dedup

/-- Python `list.remove(x)`: removes the first occurrence of `x`, raising
`ValueError` when `x` does not occur. -/
def pyRemove (l : List ℤ) (x : ℤ) : Except PyErr (List ℤ) :=
  if x ∈ l then .ok (l.erase x) else .error .valueError

/-- The position at which a label occurs in the label list; `fcdict` maps the
label at position `i` to the `i`-th generated identifier. -/
def labelIndex : List ℤ → ℤ → Option ℕ
  | [], _ => none
  | a :: t, v => if a = v then some 0 else (labelIndex t v).map (· + 1)

/-- The identifier-assignment step: collect the distinct cluster labels
sorted ascending, remove the noise label `-1` (`list.remove` raises when it
is absent), draw one fresh identifier per remaining label in order
(`uuid.uuid4()` is modelled by the stream `gen`, one draw per label), and
give every row with a positive label the identifier of its label; other rows
keep a null identifier. -/
def create_clusterUUID (gen : ℕ → ℕ) (rows : List ℤ) :
    Except PyErr (List (ℤ × Option ℕ)) :=
  match pyRemove (sortedDistinct rows) (-1) with
  | .error e => .error e
  | .ok clist =>
      .ok (rows.map fun v =>
        (v, if 0 < v then (labelIndex clist v).map gen else none))

/-! ### `acvml.CheckCardinality` (acvml.py lines 154-189)

```python
for direction in cardinalDictionary:
    if cardinalDictionary[direction][0] <= round(value, 3) < cardinalDictionary[direction][1]:
        if direction == 'N0' or direction == 'N1':
            cardinalDir = 'N'
        else:
            cardinalDir = direction
return cardinalDir     # NameError when no range matched: modelled as `none`
```
-/

/-- One named cardinal sector with its half-open degree range. -/
structure Sector where
  label : String
  lo : ℚ
  hi : ℚ

/-- The 33-entry cardinal-direction dictionary of `CheckCardinality`, in
source order (the two `N0`/`N1` half-sectors straddle the 0/360 wraparound).
-/
def cardinalDictionary : List Sector :=
  [⟨"N0", 0, 5.625⟩, ⟨"NbE", 5.625, 16.875⟩, ⟨"NNE", 16.875, 28.125⟩,
   ⟨"NEbN", 28.125, 39.375⟩, ⟨"NE", 39.375, 50.625⟩, ⟨"NEbE", 50.625, 61.875⟩,
   ⟨"ENE", 61.875, 73.125⟩, ⟨"EbN", 73.125, 84.375⟩, ⟨"E", 84.375, 95.625⟩,
   ⟨"EbS", 95.625, 106.875⟩, ⟨"ESE", 106.875, 118.125⟩, ⟨"SEbE", 118.125, 129.375⟩,
   ⟨"SE", 129.375, 140.625⟩, ⟨"SEbS", 140.625, 151.875⟩, ⟨"SSE", 151.875, 163.125⟩,
   ⟨"SbE", 163.125, 174.375⟩, ⟨"S", 174.375, 185.625⟩, ⟨"SbW", 185.625, 196.875⟩,
   ⟨"SSW", 196.875, 208.125⟩, ⟨"SWbS", 208.125, 219.375⟩, ⟨"SW", 219.375, 230.625⟩,
   ⟨"SWbW", 230.625, 241.875⟩, ⟨"WSW", 241.875, 253.125⟩, ⟨"WbS", 253.125, 264.375⟩,
   ⟨"W", 264.375, 275.625⟩, ⟨"WbN", 275.625, 286.875⟩, ⟨"WNW", 286.875, 298.125⟩,
   ⟨"NWbW", 298.125, 309.375⟩, ⟨"NW", 309.375, 320.625⟩, ⟨"NWbN", 320.625, 331.875⟩,
   ⟨"NNW", 331.875, 343.125⟩, ⟨"NbW", 343.125, 354.375⟩, ⟨"N1", 354.375, 360.000001⟩]

/-- Round-half-to-even on rationals (the tie rule of Python's `round`). -/
def roundHalfEven (x : ℚ) : ℤ :=
  let f := ⌊x⌋
  let r := x - f
  if r < 1/2 then f
  else if 1/2 < r then f + 1
  else if f % 2 = 0 then f else f + 1

/-- Python `round(value, 3)`. -/
def pyRound3 (x : ℚ) : ℚ := (roundHalfEven (1000 * x) : ℚ) / 1000

/-- The canonical relabelling applied inside the match: the two wraparound
half-sectors `N0` and `N1` both resolve to the label `N`. -/
def canonDir (s : String) : String := if s = "N0" ∨ s = "N1" then "N" else s

/-- `acvml.CheckCardinality`: scan every dictionary entry in order, binding
the (canonicalised) label on each range match; the value left bound after the
loop is returned.  When no range matches, the Python code raises `NameError`
(`cardinalDir` was never bound), modelled by `none`. -/
def CheckCardinality (value : ℚ) : Option String :=
  cardinalDictionary.foldl
    (fun acc s =>
      if s.lo ≤ pyRound3 value ∧ pyRound3 value < s.hi then some (canonDir s.label)
      else acc)
    none

/-- Whether a rounded bearing falls in one sector's half-open range. -/
def sectorMatches (r : ℚ) (s : Sector) : Bool := decide (s.lo ≤ r ∧ r < s.hi)

/-- How many dictionary entries match a given bearing. -/
def matchCount (value : ℚ) : ℕ :=
  (cardinalDictionary.filter (sectorMatches (pyRound3 value))).length

/-- The upper bound of the last sector of a dictionary. -/
def lastHi : List Sector → ℚ
  | [] => 0
  | [s] => s.hi
  | _ :: t => lastHi t

/-- The lower bound of the first sector of a dictionary. -/
def firstLo : List Sector → ℚ
  | [] => 0
  | s :: _ => s.lo

/-! ### `acvml.GetDirection` (acvml.py lines 193-212)

```python
deg = math.degrees(math.atan2(x, y))
degout = deg
if deg < 0:
    degout = (deg + 360) % 360
return degout
```
-/

/-- `math.atan2(a, b)`: the angle of the planar point `(b, a)`, in
`(-pi, pi]`; `math.atan2(0, 0)` is `0`, exactly as `Complex.arg 0 = 0`. -/
noncomputable def atan2 (a b : ℝ) : ℝ := Complex.arg ⟨b, a⟩

/-- Python `%` on floats: `a - b * floor(a / b)`. -/
noncomputable def pyFMod (a b : ℝ) : ℝ := a - b * ⌊a / b⌋

/-- `acvml.GetDirection`: degrees of `atan2(x, y)` (`x` easting, `y`
northing), shifted by 360 and reduced mod 360 when negative.  The source
binds the intermediate to `deg`/`degout`; written here as the equivalent
conditional expression. -/
noncomputable def GetDirection (x y : ℝ) : ℝ :=
  if atan2 x y * (180 / Real.pi) < 0 then
    pyFMod (atan2 x y * (180 / Real.pi) + 360) 360
  else atan2 x y * (180 / Real.pi)

/-! ### Pairwise triangulation and cluster aggregation
(`acvgis.CreatePointClusters` step 4, acvgis.py lines 607-787, and the
duplicated `acvclusters.calculate_object_coordinates`, acvgis_old.py lines
629-821; the two versions' computation bodies are line-for-line identical)

For each cluster the code reads rows
`x1, y1, θ1 = pointdict[id][4], [5], [3]` — the `Northing`, `Easting` and
`ObjectDirection` fields — computes `μ = math.tan(θ)` for each observation
(the stored degree value is passed to `math.tan` unconverted), intersects
every pair of bearing lines, converts points with
`pyproj.transform(inProj, outProj, easting, northing)` (modelled by the
function parameter `T`), rebuilds the per-observation attribution dictionary
`rowdata`, and finally computes `statistics.mean` / `statistics.stdev` over
the attributed values.  The model is exact for every cluster that has at
least one pair (for such clusters `rowdata` is rebuilt from scratch on the
final pair iteration, so no state leaks between clusters). -/

/-- One clustered observation row with the fields the computation reads:
`oid` is `OBJECTID1`, `x` is `Northing`, `y` is `Easting`, `θ` is
`ObjectDirection`. -/
structure Obs where
  oid : ℕ
  x : ℝ
  y : ℝ
  θ : ℝ

/-- `x3 = (y2 - y1 + (μ1 * x1) - (μ2 * x2)) / (μ1 - μ2)`. -/
noncomputable def intersectX (x1 y1 μ1 x2 y2 μ2 : ℝ) : ℝ :=
  (y2 - y1 + μ1 * x1 - μ2 * x2) / (μ1 - μ2)

/-- `y3 = y1 - (μ1 * (x1 - x3))`. -/
noncomputable def intersectY (x1 y1 μ1 x3 : ℝ) : ℝ := y1 - μ1 * (x1 - x3)

/-- `math.sqrt((x2 - x1)**2 + (y2 - y1)**2)`. -/
noncomputable def dist2D (x1 y1 x2 y2 : ℝ) : ℝ :=
  Real.sqrt ((x2 - x1) ^ 2 + (y2 - y1) ^ 2)

/-- The entry stored in `objcoorddict` for one pair of observations. -/
structure PairRec where
  oid1 : ℕ
  oid2 : ℕ
  latOID1 : ℝ
  lonOID1 : ℝ
  latOID2 : ℝ
  lonOID2 : ℝ
  objDirOID1 : ℝ
  objDirOID2 : ℝ
  meanObjDir : ℝ
  latObject : ℝ
  lonObject : ℝ
  drivingDistance : ℝ
  objDistanceOID1 : ℝ
  objDistanceOID2 : ℝ

/-- The body of the pair loop: slopes `μi = math.tan(θi)`, the 2×2 line
intersection (Python raises `ZeroDivisionError` when `μ1 - μ2 == 0`), the
three planar distances, the arithmetic mean bearing, and the three
conversions `lat, lon = transform(inProj, outProj, easting, northing)`
(note the source binds the transform's first output to its `lat` variables
and the second to its `lon` variables). -/
noncomputable def pairCalc (T : ℝ → ℝ → ℝ × ℝ) (a b : Obs) :
    Except PyErr PairRec :=
  if Real.tan a.θ - Real.tan b.θ = 0 then .error .zeroDivisionError
  else
    let x3 := intersectX a.x a.y (Real.tan a.θ) b.x b.y (Real.tan b.θ)
    let y3 := intersectY a.x a.y (Real.tan a.θ) x3
    .ok
      { oid1 := a.oid
        oid2 := b.oid
        latOID1 := (T a.y a.x).1
        lonOID1 := (T a.y a.x).2
        latOID2 := (T b.y b.x).1
        lonOID2 := (T b.y b.x).2
        objDirOID1 := a.θ
        objDirOID2 := b.θ
        meanObjDir := (a.θ + b.θ) / 2
        latObject := (T y3 x3).1
        lonObject := (T y3 x3).2
        drivingDistance := dist2D a.x a.y b.x b.y
        objDistanceOID1 := dist2D a.x a.y x3 y3
        objDistanceOID2 := dist2D b.x b.y x3 y3 }

/-- `itertools.combinations(ids, 2)` in its enumeration order. -/
def pairsOf {α : Type} : List α → List (α × α)
  | [] => []
  | a :: rest => (rest.map fun b => (a, b)) ++ pairsOf rest

/-- `str(n)` for a natural number, as a character list. -/
def pyStr (n : ℕ) : List Char := (Nat.repr n).toList

/-- Whether the first character list is an initial segment of the second. -/
def leadsList : List Char → List Char → Bool
  | [], _ => true
  | _ :: _, [] => false
  | c :: cs, d :: ds => c = d && leadsList cs ds

/-- Python's `a in b` on strings: contiguous-substring containment. -/
def strIn (a : List Char) : List Char → Bool
  | [] => a.isEmpty
  | d :: ds => leadsList a (d :: ds) || strIn a ds

/-- One attributed sample of `rowdata` (the keys written through
`outputlist`, plus the `OID` key). -/
structure Attr where
  oid : ℕ
  latOID : ℝ
  lonOID : ℝ
  latObject : ℝ
  lonObject : ℝ
  drivingDistance : ℝ
  objDistanceOID : ℝ
  meanObjDir : ℝ

/-- The attribution written when the point matched the pair's `OID1` slot
(`indexlist1`). -/
def attrOf1 (p : ℕ) (pr : PairRec) : Attr :=
  { oid := p
    latOID := pr.latOID1
    lonOID := pr.lonOID1
    latObject := pr.latObject
    lonObject := pr.lonObject
    drivingDistance := pr.drivingDistance
    objDistanceOID := pr.objDistanceOID1
    meanObjDir := pr.meanObjDir }

/-- The attribution written when the point matched the pair's `OID2` slot
(`indexlist2`). -/
def attrOf2 (p : ℕ) (pr : PairRec) : Attr :=
  { oid := p
    latOID := pr.latOID2
    lonOID := pr.lonOID2
    latObject := pr.latObject
    lonObject := pr.lonObject
    drivingDistance := pr.drivingDistance
    objDistanceOID := pr.objDistanceOID2
    meanObjDir := pr.meanObjDir }

/-- The `rowdata[oid]` entry after the loop over `objcoorddict`: the pairs
are scanned in order and each match overwrites all previously written
values, so the last matching pair wins; a point is matched against a pair by
the Python test `str(point) in str(pair oid)` — substring containment, not
equality.  `none` models an entry left as the empty dictionary (a later
lookup of its keys raises `KeyError`). -/
def attrFor (p : ℕ) (prs : List PairRec) : Option Attr :=
  prs.foldl
    (fun acc pr =>
      if strIn (pyStr p) (pyStr pr.oid1) then some (attrOf1 p pr)
      else if strIn (pyStr p) (pyStr pr.oid2) then some (attrOf2 p pr)
      else acc)
    none

/-- Error-propagating bind on `Except` (an uncaught Python exception). -/
def exBind {α β : Type} (x : Except PyErr α) (f : α → Except PyErr β) :
    Except PyErr β :=
  match x with
  | .error e => .error e
  | .ok a => f a

/-- Monadic map over a list: the first exception aborts the whole loop. -/
def exMapM {α β : Type} (f : α → Except PyErr β) : List α → Except PyErr (List β)
  | [] => .ok []
  | a :: t => exBind (f a) fun b => exBind (exMapM f t) fun bs => .ok (b :: bs)

/-- Reading the attributed values out of `rowdata`: a missing key (an
observation never matched by any pair) raises `KeyError` in the statistics
comprehensions. -/
def exAttrs : List (Option Attr) → Except PyErr (List Attr)
  | [] => .ok []
  | none :: _ => .error .keyError
  | some a :: t => exBind (exAttrs t) fun l => .ok (a :: l)

/-- `statistics.mean`: the arithmetic mean (`StatisticsError` on no data). -/
noncomputable def pyMean (xs : List ℝ) : ℝ := xs.sum / (xs.length : ℝ)

/-- `statistics.mean` with its empty-data error. -/
noncomputable def stMean (xs : List ℝ) : Except PyErr ℝ :=
  if xs.length = 0 then .error .statisticsError else .ok (pyMean xs)

/-- `statistics.stdev`: the sample standard deviation with `N - 1`
denominator. -/
noncomputable def pyStdev (xs : List ℝ) : ℝ :=
  Real.sqrt ((xs.map fun v => (v - pyMean xs) ^ 2).sum / ((xs.length : ℝ) - 1))

/-- `statistics.stdev` with its fewer-than-two-samples error. -/
noncomputable def stStdev (xs : List ℝ) : Except PyErr ℝ :=
  if xs.length < 2 then .error .statisticsError else .ok (pyStdev xs)

/-- The per-cluster row of statistics appended to `coordlist`/`response`
(the `GoogleAPIObj` URL string, which no claim concerns, is not modelled). -/
structure Record where
  latOIDMean : ℝ
  latOIDStd : ℝ
  lonOIDMean : ℝ
  lonOIDStd : ℝ
  latObjMean : ℝ
  latObjStd : ℝ
  lonObjMean : ℝ
  lonObjStd : ℝ
  drivDistMean : ℝ
  drivDistStd : ℝ
  objDistOIDMean : ℝ
  objDistOIDStd : ℝ
  objDirMean : ℝ
  objDirStd : ℝ

/-- All pairwise estimates of one cluster, in combination order. -/
noncomputable def clusterPairs (T : ℝ → ℝ → ℝ × ℝ) (cl : List Obs) :
    Except PyErr (List PairRec) :=
  exMapM (fun p => pairCalc T p.1 p.2) (pairsOf cl)

/-- The attributed samples of one cluster, one `rowdata` entry per
observation in row order. -/
noncomputable def clusterAttrs (T : ℝ → ℝ → ℝ × ℝ) (cl : List Obs) :
    Except PyErr (List Attr) :=
  exBind (clusterPairs T cl) fun prs =>
    exAttrs (cl.map fun o => attrFor o.oid prs)

/-- The cluster-side calculation: pairwise estimates, attribution, then the
fourteen `statistics.mean`/`statistics.stdev` calls in source order. -/
noncomputable def clusterCalc (T : ℝ → ℝ → ℝ × ℝ) (cl : List Obs) :
    Except PyErr Record :=
  exBind (clusterAttrs T cl) fun attrs =>
  exBind (stMean (attrs.map Attr.latOID)) fun latOIDMean =>
  exBind (stStdev (attrs.map Attr.latOID)) fun latOIDStd =>
  exBind (stMean (attrs.map Attr.lonOID)) fun lonOIDMean =>
  exBind (stStdev (attrs.map Attr.lonOID)) fun lonOIDStd =>
  exBind (stMean (attrs.map Attr.latObject)) fun latObjMean =>
  exBind (stStdev (attrs.map Attr.latObject)) fun latObjStd =>
  exBind (stMean (attrs.map Attr.lonObject)) fun lonObjMean =>
  exBind (stStdev (attrs.map Attr.lonObject)) fun lonObjStd =>
  exBind (stMean (attrs.map Attr.drivingDistance)) fun drivDistMean =>
  exBind (stStdev (attrs.map Attr.drivingDistance)) fun drivDistStd =>
  exBind (stMean (attrs.map Attr.objDistanceOID)) fun objDistOIDMean =>
  exBind (stStdev (attrs.map Attr.objDistanceOID)) fun objDistOIDStd =>
  exBind (stMean (attrs.map Attr.meanObjDir)) fun objDirMean =>
  exBind (stStdev (attrs.map Attr.meanObjDir)) fun objDirStd =>
  .ok
    { latOIDMean := latOIDMean
      latOIDStd := latOIDStd
      lonOIDMean := lonOIDMean
      lonOIDStd := lonOIDStd
      latObjMean := latObjMean
      latObjStd := latObjStd
      lonObjMean := lonObjMean
      lonObjStd := lonObjStd
      drivDistMean := drivDistMean
      drivDistStd := drivDistStd
      objDistOIDMean := objDistOIDMean
      objDistOIDStd := objDistOIDStd
      objDirMean := objDirMean
      objDirStd := objDirStd }

/-- The cluster loop: every cluster is processed in order; an exception in
any cluster propagates out of the whole function (there is no `try` block
and no failure manifest in the source). -/
noncomputable def calcAll (T : ℝ → ℝ → ℝ × ℝ) :
    List (List Obs) → Except PyErr (List Record)
  | [] => .ok []
  | c :: rest =>
      exBind (clusterCalc T c) fun r =>
        exBind (calcAll T rest) fun rs => .ok (r :: rs)

/-- Reads a field of a successful result; `none` when an exception was
raised. -/
def exOk {α β : Type} (f : α → β) : Except PyErr α → Option β
  | .ok a => some (f a)
  | .error _ => none

/-- A stand-in coordinate transform used for concrete runs (the transform is
an external collaborator — `pyproj` — passed as the parameter `T`; this
concrete instance keeps the two components distinguishable). -/
def T0 : ℝ → ℝ → ℝ × ℝ := fun e n => (e, n)

/-- Modelled from the spec (§4.5): the union of attributed samples in which
each pairwise estimate contributes one sample to each of its two
observations. -/
def specAttributedSamples (cl : List Obs) (prs : List PairRec) : List Attr :=
  cl.flatMap fun o =>
    (prs.filter fun pr => pr.oid1 == o.oid || pr.oid2 == o.oid).map fun pr =>
      if pr.oid1 == o.oid then attrOf1 o.oid pr else attrOf2 o.oid pr

/-- Modelled from the spec (§4.5): the textbook sample mean. -/
noncomputable def specSampleMean (xs : List ℝ) : ℝ := xs.sum / (xs.length : ℝ)

/-- Modelled from the spec (§4.5): the textbook sample standard deviation
with `N - 1` denominator. -/
noncomputable def specSampleStd (xs : List ℝ) : ℝ :=
  Real.sqrt ((xs.map fun v => (v - specSampleMean xs) ^ 2).sum /
    ((xs.length : ℝ) - 1))

/-- Modelled from the spec and from the repository's own
`acvml.ConvertStatePlane` documentation (acvml.py lines 216-237):
`pyproj.transform(inProj, outProj, easting, northing)` returns
`(longitude, latitude)`, so the longitude is the first component of the
transform's value. -/
def geoLongitude (T : ℝ → ℝ → ℝ × ℝ) (e n : ℝ) : ℝ := (T e n).1

/-- Modelled from the spec and from `acvml.ConvertStatePlane` (acvml.py
lines 216-237): the geographic latitude is the second component of the
transform's value. -/
def geoLatitude (T : ℝ → ℝ → ℝ × ℝ) (e n : ℝ) : ℝ := (T e n).2

/-- First observation of the 3-member test cluster: capture `(0, 0)`,
slope `tan(pi/4) = 1`. -/
noncomputable def obsA3 : Obs := ⟨1, 0, 0, Real.pi / 4⟩

/-- Second observation: capture `(100, 0)`, slope `tan(3*pi/4) = -1`. -/
noncomputable def obsB3 : Obs := ⟨2, 100, 0, 3 * Real.pi / 4⟩

/-- Third observation: capture `(50, 100)`, slope `tan 0 = 0`. -/
def obsC3 : Obs := ⟨3, 50, 100, 0⟩

/-- The 3-member cluster used for the aggregation claims. -/
noncomputable def clu3 : List Obs := [obsA3, obsB3, obsC3]

/-- A 2-member cluster with distinct bearings (slopes 1 and -1). -/
noncomputable def kOne : List Obs := [obsA3, obsB3]

/-- A 2-member cluster with distinct bearings (slopes 1 and 0). -/
noncomputable def kTwo : List Obs := [⟨4, 0, 0, Real.pi / 4⟩, ⟨5, 100, 0, 0⟩]

/-- A 2-member cluster whose two observations share the identical bearing
`0.5` — its pair computation divides by zero. -/
noncomputable def kPar : List Obs := [⟨6, 0, 0, 0.5⟩, ⟨7, 100, 0, 0.5⟩]

/-! ### Lemmas and claim theorems -/
lemma CheckDegrees_eq (x y : ℚ) :
    CheckDegrees x y = x + y ∨ CheckDegrees x y = x + y - 360 := by
  simp only [CheckDegrees]
  split
  · exact Or.inr rfl
  · exact Or.inl rfl

lemma mem_insertSorted {a x : ℤ} :
    ∀ {l : List ℤ}, x ∈ insertSorted a l ↔ x = a ∨ x ∈ l := by
  intro l
  induction l with
  | nil => simp [insertSorted]
  | cons b t ih =>
    simp only [insertSorted]
    split
    · simp
    · simp [ih]; tauto

lemma mem_sortInts {x : ℤ} : ∀ {l : List ℤ}, x ∈ sortInts l ↔ x ∈ l := by
  intro l
  induction l with
  | nil => simp [sortInts]
  | cons a t ih => simp [sortInts, mem_insertSorted, ih]

lemma nodup_insertSorted {a : ℤ} :
    ∀ {l : List ℤ}, a ∉ l → l.Nodup → (insertSorted a l).Nodup := by
  intro l
  induction l with
  | nil => intro _ _; simp [insertSorted]
  | cons b t ih =>
    intro ha hn
    simp only [insertSorted]
    split
    · exact List.nodup_cons.mpr ⟨ha, hn⟩
    · rcases List.nodup_cons.mp hn with ⟨hbt, hnt⟩
      refine List.nodup_cons.mpr ⟨?_, ih (fun h => ha (List.mem_cons_of_mem b h)) hnt⟩
      intro hb
      rcases mem_insertSorted.mp hb with h | h
      · exact ha (h ▸ List.mem_cons_self b t)
      · exact hbt h

lemma nodup_sortInts : ∀ {l : List ℤ}, l.Nodup → (sortInts l).Nodup := by
  intro l
  induction l with
  | nil => intro _; simp [sortInts]
  | cons a t ih =>
    intro hn
    rcases List.nodup_cons.mp hn with ⟨hat, hnt⟩
    exact nodup_insertSorted (fun h => hat (mem_sortInts.mp h)) (ih hnt)

lemma mem_sortedDistinct {x : ℤ} {l : List ℤ} :
    x ∈ sortedDistinct l ↔ x ∈ l := by
  simp [sortedDistinct, mem_sortInts, List.mem_dedup]

lemma nodup_sortedDistinct (l : List ℤ) : (sortedDistinct l).Nodup :=
  nodup_sortInts l.nodup_dedup

lemma labelIndex_get :
    ∀ {l : List ℤ} {v : ℤ} {i : ℕ}, labelIndex l v = some i → l.get? i = some v := by
  intro l
  induction l with
  | nil => intro v i h; simp [labelIndex] at h
  | cons a t ih =>
    intro v i h
    simp only [labelIndex] at h
    split at h
    · rename_i hav
      cases h
      simpa using hav
    · rcases Option.map_eq_some'.mp h with ⟨j, hj, rfl⟩
      simpa using ih hj

lemma labelIndex_isSome :
    ∀ {l : List ℤ} {v : ℤ}, v ∈ l → (labelIndex l v).isSome := by
  intro l
  induction l with
  | nil => intro v h; simp at h
  | cons a t ih =>
    intro v hv
    simp only [labelIndex]
    split
    · rfl
    · rename_i hav
      rcases List.mem_cons.mp hv with h | h
      · exact absurd h.symm hav
      · rcases Option.isSome_iff_exists.mp (ih h) with ⟨j, hj⟩
        simp [hj]

lemma labelIndex_eq_none {l : List ℤ} {v : ℤ} (hv : v ∉ l) :
    labelIndex l v = none := by
  induction l with
  | nil => rfl
  | cons a t ih =>
    have hav : ¬ a = v := fun h => hv (by simp [← h])
    simp only [labelIndex, if_neg hav,
      ih (fun h => hv (List.mem_cons_of_mem a h)), Option.map_none']

lemma labelIndex_inj {l : List ℤ} {v w : ℤ} {i : ℕ}
    (hv : labelIndex l v = some i) (hw : labelIndex l w = some i) : v = w := by
  have h1 := labelIndex_get hv
  have h2 := labelIndex_get hw
  rw [h1] at h2
  exact Option.some_inj.mp h2

/-! ### Claims C6, C9, C10 -/

/-- C6 counterexample: the claim says the result of degree addition lies in
`[0, 360)` for every base in `[0, 360)` and every delta, but at base 180 and
delta 180 the code returns exactly 360 (the wraparound test is `> 360`, so a
sum of exactly 360 is not reduced). -/
theorem C6_counterexample :
    ((0:ℚ) ≤ 180 ∧ (180:ℚ) < 360) ∧ CheckDegrees 180 180 = 360 ∧
      ¬ CheckDegrees 180 180 < 360 := by
  norm_num [CheckDegrees]

/-- C6 (amended): `CheckDegrees 350 20 = 10`; the double-application identity
`CheckDegrees (CheckDegrees a b) (-b) ≡ a (mod 360)` holds for all rational
`a`, `b`; and the result lies in `[0, 360)` provided `0 ≤ base + delta < 720`
and `base + delta ≠ 360` (the code subtracts 360 at most once and never
adjusts a non-positive or exactly-360 sum). -/
theorem C6_amended :
    CheckDegrees 350 20 = 10 ∧
    (∀ a b : ℚ, ∃ k : ℤ,
      CheckDegrees (CheckDegrees a b) (-b) - a = 360 * (k : ℚ)) ∧
    (∀ a b : ℚ, 0 ≤ a + b → a + b < 720 → a + b ≠ 360 →
      0 ≤ CheckDegrees a b ∧ CheckDegrees a b < 360) := by
  refine ⟨by norm_num [CheckDegrees], ?_, ?_⟩
  · intro a b
    rcases CheckDegrees_eq a b with h1 | h1 <;>
      rcases CheckDegrees_eq (CheckDegrees a b) (-b) with h2 | h2 <;>
        rw [h2, h1]
    · exact ⟨0, by push_cast; ring⟩
    · exact ⟨-1, by push_cast; ring⟩
    · exact ⟨-1, by push_cast; ring⟩
    · exact ⟨-2, by push_cast; ring⟩
  · intro a b h0 h720 h360
    simp only [CheckDegrees]
    split
    · constructor <;> linarith
    · rename_i hle
      push_neg at hle
      exact ⟨h0, lt_of_le_of_ne hle h360⟩

/-- C6 witness: the hypothesis-bearing range clause of `C6_amended`
instantiated at base 350, delta 20. -/
theorem C6_witness :
    0 ≤ CheckDegrees 350 20 ∧ CheckDegrees 350 20 < 360 :=
  C6_amended.2.2 350 20 (by norm_num) (by norm_num) (by norm_num)

/-- C9: within one run the label-to-identifier translation is a fixed mapping
drawn once per distinct numeric label: rows with equal labels receive equal
identifiers, rows with distinct positive labels receive distinct identifiers
(given that the identifier stream `gen`, which models successive
`uuid.uuid4()` draws, has no collision), every positive-label row receives an
identifier, and non-positive rows (in particular the noise label `-1`, which
is removed from the label list before identifiers are drawn) receive none. -/
theorem C9_theorem (gen : ℕ → ℕ) (rows : List ℤ)
    (hg : Function.Injective gen) (hn : (-1 : ℤ) ∈ rows) :
    ∀ out, create_clusterUUID gen rows = .ok out →
      (∀ p ∈ out, ∀ q ∈ out, p.1 = q.1 → p.2 = q.2) ∧
      (∀ p ∈ out, ∀ q ∈ out, 0 < p.1 → 0 < q.1 → p.1 ≠ q.1 → p.2 ≠ q.2) ∧
      (∀ p ∈ out, 0 < p.1 → p.2.isSome) ∧
      (∀ p ∈ out, p.1 ≤ 0 → p.2 = none) := by
  intro out hout
  have hmem : (-1 : ℤ) ∈ sortedDistinct rows := mem_sortedDistinct.mpr hn
  simp only [create_clusterUUID, pyRemove, if_pos hmem] at hout
  cases hout
  set clist := (sortedDistinct rows).erase (-1) with hclist
  have hrowmem : ∀ p ∈ rows.map (fun v =>
      (v, if 0 < v then (labelIndex clist v).map gen else none)),
      p.1 ∈ rows ∧ p.2 = if 0 < p.1 then (labelIndex clist p.1).map gen else none := by
    intro p hp
    rcases List.mem_map.mp hp with ⟨v, hv, rfl⟩
    exact ⟨hv, rfl⟩
  have hinclist : ∀ v : ℤ, v ∈ rows → 0 < v → v ∈ clist := by
    intro v hv hvpos
    rw [hclist]
    refine (List.mem_erase_of_ne (by omega)).mpr (mem_sortedDistinct.mpr hv)
  refine ⟨?_, ?_, ?_, ?_⟩
  · intro p hp q hq hpq
    rcases hrowmem p hp with ⟨_, hp2⟩
    rcases hrowmem q hq with ⟨_, hq2⟩
    rw [hp2, hq2, hpq]
  · intro p hp q hq hppos hqpos hne
    rcases hrowmem p hp with ⟨hp1, hp2⟩
    rcases hrowmem q hq with ⟨hq1, hq2⟩
    rw [hp2, hq2, if_pos hppos, if_pos hqpos]
    rcases Option.isSome_iff_exists.mp (labelIndex_isSome (hinclist _ hp1 hppos)) with ⟨i, hi⟩
    rcases Option.isSome_iff_exists.mp (labelIndex_isSome (hinclist _ hq1 hqpos)) with ⟨j, hj⟩
    rw [hi, hj]
    simp only [Option.map_some', ne_eq, Option.some.injEq]
    intro hgij
    have hij : i = j := hg hgij
    exact hne (labelIndex_inj hi (hij ▸ hj))
  · intro p hp hppos
    rcases hrowmem p hp with ⟨hp1, hp2⟩
    rw [hp2, if_pos hppos]
    rcases Option.isSome_iff_exists.mp (labelIndex_isSome (hinclist _ hp1 hppos)) with ⟨i, hi⟩
    simp [hi]
  · intro p hp hple
    rcases hrowmem p hp with ⟨_, hp2⟩
    rw [hp2, if_neg (by omega)]

/-- C9 witness: `C9_theorem` instantiated on the concrete run
`rows = [-1, 2, 1, 2]` with the identity identifier stream: both rows with
label 2 receive identifier 1, label 1 receives identifier 0, and the noise
row receives none. -/
theorem C9_witness :
    (∀ p ∈ [((-1:ℤ), (none : Option ℕ)), (2, some 1), (1, some 0), (2, some 1)],
      ∀ q ∈ [((-1:ℤ), (none : Option ℕ)), (2, some 1), (1, some 0), (2, some 1)],
        p.1 = q.1 → p.2 = q.2) ∧
    (∀ p ∈ [((-1:ℤ), (none : Option ℕ)), (2, some 1), (1, some 0), (2, some 1)],
      ∀ q ∈ [((-1:ℤ), (none : Option ℕ)), (2, some 1), (1, some 0), (2, some 1)],
        0 < p.1 → 0 < q.1 → p.1 ≠ q.1 → p.2 ≠ q.2) ∧
    (∀ p ∈ [((-1:ℤ), (none : Option ℕ)), (2, some 1), (1, some 0), (2, some 1)],
      0 < p.1 → p.2.isSome) ∧
    (∀ p ∈ [((-1:ℤ), (none : Option ℕ)), (2, some 1), (1, some 0), (2, some 1)],
      p.1 ≤ 0 → p.2 = none) :=
  C9_theorem (fun n => n) [-1, 2, 1, 2] (fun _ _ h => h) (by decide)
    [((-1:ℤ), (none : Option ℕ)), (2, some 1), (1, some 0), (2, some 1)] (by rfl)

/-- C10: when the clustering assignment contains no noise label at all, the
unconditional `clist.remove(-1)` raises `ValueError` and the
identifier-assignment step fails instead of proceeding. -/
theorem C10_theorem (gen : ℕ → ℕ) (rows : List ℤ) (hn : (-1 : ℤ) ∉ rows) :
    create_clusterUUID gen rows = .error .valueError := by
  have h : (-1 : ℤ) ∉ sortedDistinct rows := fun h => hn (mem_sortedDistinct.mp h)
  simp [create_clusterUUID, pyRemove, h]

/-- C10 witness: `C10_theorem` on the concrete all-clustered assignment
`[1, 2, 3]`. -/
theorem C10_witness :
    create_clusterUUID (fun n => n) [1, 2, 3] = .error .valueError :=
  C10_theorem (fun n => n) [1, 2, 3] (by decide)

lemma his_le_los :
    ∀ (l : List Sector) (a : Sector),
      List.Chain' (fun s t => s.hi = t.lo) (a :: l) →
      (∀ s ∈ a :: l, s.lo < s.hi) → ∀ s ∈ l, a.hi ≤ s.lo := by
  intro l
  induction l with
  | nil => intro a _ _ s hs; simp at hs
  | cons b t ih =>
    intro a hch hlt s hs
    rcases List.chain'_cons.mp hch with ⟨hab, hbt⟩
    rcases List.mem_cons.mp hs with h | h
    · exact le_of_eq (h ▸ hab)
    · have hb : a.hi ≤ b.lo := le_of_eq hab
      have hbhi : b.lo < b.hi := hlt b (by simp)
      have := ih b hbt (fun s hs => hlt s (List.mem_cons_of_mem a hs)) s h
      linarith

lemma filter_one :
    ∀ (l : List Sector) (r : ℚ),
      List.Chain' (fun s t => s.hi = t.lo) l →
      (∀ s ∈ l, s.lo < s.hi) → l ≠ [] → firstLo l ≤ r → r < lastHi l →
      (l.filter (sectorMatches r)).length = 1 := by
  intro l
  induction l with
  | nil => intro r _ _ hne _ _; exact absurd rfl hne
  | cons a t ih =>
    intro r hch hlt _ hfirst hlast
    cases t with
    | nil =>
      have hmatch : sectorMatches r a = true := by
        simp only [sectorMatches, decide_eq_true_eq]
        exact ⟨hfirst, hlast⟩
      simp [hmatch]
    | cons b t2 =>
      by_cases hr : r < a.hi
      · have hmatch : sectorMatches r a = true := by
          simp only [sectorMatches, decide_eq_true_eq]
          exact ⟨hfirst, hr⟩
        have hrest : (b :: t2).filter (sectorMatches r) = [] := by
          rw [List.filter_eq_nil_iff]
          intro s hs
          have hge := his_le_los (b :: t2) a hch hlt s hs
          simp only [sectorMatches, decide_eq_true_eq, not_and, not_lt]
          intro hslo
          linarith
        simp [List.filter_cons, hmatch, hrest]
      · have hmatch : sectorMatches r a = false := by
          simp only [sectorMatches, decide_eq_false_iff_not, not_and, not_lt]
          intro _
          linarith [not_lt.mp hr]
        rcases List.chain'_cons.mp hch with ⟨hab, hbt⟩
        have := ih r hbt (fun s hs => hlt s (List.mem_cons_of_mem a hs))
          (by simp) (by simpa [firstLo, ← hab] using not_lt.mp hr)
          (by simpa [lastHi] using hlast)
        simpa [List.filter_cons, hmatch] using this

lemma foldl_card_none_iff (r : ℚ) :
    ∀ (l : List Sector) (acc : Option String),
      (l.foldl
        (fun acc s => if s.lo ≤ r ∧ r < s.hi then some (canonDir s.label) else acc)
        acc) = none ↔ acc = none ∧ l.filter (sectorMatches r) = [] := by
  intro l
  induction l with
  | nil => intro acc; simp
  | cons a t ih =>
    intro acc
    by_cases h : a.lo ≤ r ∧ r < a.hi
    · have hm : sectorMatches r a = true := by
        simp [sectorMatches, h.1, h.2]
      simp only [List.foldl_cons, if_pos h, ih, List.filter_cons, hm]
      simp
    · have hm : sectorMatches r a = false := by
        simp only [sectorMatches, decide_eq_false_iff_not]
        exact h
      simp only [List.foldl_cons, if_neg h, ih, List.filter_cons, hm]
      simp

lemma pyRound3_zero : pyRound3 0 = 0 := by
  norm_num [pyRound3, roundHalfEven]

lemma pyRound3_cases (x : ℚ) :
    roundHalfEven x = ⌊x⌋ ∨ roundHalfEven x = ⌊x⌋ + 1 := by
  simp only [roundHalfEven]
  split
  · exact Or.inl rfl
  · split
    · exact Or.inr rfl
    · split
      · exact Or.inl rfl
      · exact Or.inr rfl

lemma cardinalDictionary_chain :
    List.Chain' (fun s t => s.hi = t.lo) cardinalDictionary := by
  simp only [cardinalDictionary, List.chain'_cons, List.chain'_singleton]
  norm_num

lemma cardinalDictionary_lo_lt_hi : ∀ s ∈ cardinalDictionary, s.lo < s.hi := by
  simp only [cardinalDictionary, List.forall_mem_cons, List.forall_mem_singleton]
  norm_num

/-- C7: the cardinal-sector lookup is total and unambiguous on `[0, 360)` —
for every rational bearing in that range exactly one dictionary range
matches and a label is returned — and the two wraparound half-sectors
resolve to the same canonical label: `CheckCardinality 0` and
`CheckCardinality 359.999999` (which rounds to 360 before lookup) are both
`"N"`. -/
theorem C7_theorem :
    (∀ b : ℚ, 0 ≤ b → b < 360 →
      matchCount b = 1 ∧ (CheckCardinality b).isSome) ∧
    CheckCardinality 0 = some "N" ∧
    CheckCardinality 359.999999 = some "N" := by
  refine ⟨?_, ?_, ?_⟩
  case refine_2 =>
    norm_num [CheckCardinality, cardinalDictionary, pyRound3_zero, canonDir]
  case refine_3 =>
    have h : pyRound3 359.999999 = 360 := by
      have hf : ⌊(1000 : ℚ) * 359.999999⌋ = 359999 := by
        rw [Int.floor_eq_iff]
        constructor <;> norm_num
      norm_num [pyRound3, roundHalfEven, hf]
    simp only [CheckCardinality, cardinalDictionary, h, canonDir, List.foldl_cons,
      List.foldl_nil]
    norm_num
  intro b h0 h360
  have hfl : (0 : ℚ) ≤ ⌊1000 * b⌋ := by
    have : (0 : ℚ) ≤ 1000 * b := by linarith
    exact_mod_cast Int.floor_nonneg.mpr this
  have hfu : (⌊1000 * b⌋ : ℚ) ≤ 359999 := by
    have h1 : (1000 : ℚ) * b < 360000 := by linarith
    have h2 : ⌊(1000 : ℚ) * b⌋ < (360000 : ℤ) := Int.floor_lt.mpr (by exact_mod_cast h1)
    have h3 : ⌊(1000 : ℚ) * b⌋ ≤ 359999 := by omega
    exact_mod_cast h3
  have hr0 : 0 ≤ pyRound3 b := by
    simp only [pyRound3]
    rcases pyRound3_cases (1000 * b) with h | h <;> rw [h] <;> push_cast <;> linarith
  have hr1 : pyRound3 b ≤ 360 := by
    simp only [pyRound3]
    rcases pyRound3_cases (1000 * b) with h | h <;> rw [h] <;> push_cast <;> linarith
  have hcount : matchCount b = 1 := by
    apply filter_one cardinalDictionary (pyRound3 b)
    · exact cardinalDictionary_chain
    · exact cardinalDictionary_lo_lt_hi
    · simp [cardinalDictionary]
    · simpa [cardinalDictionary, firstLo] using hr0
    · have hlast : lastHi cardinalDictionary = 360.000001 := by
        norm_num [cardinalDictionary, lastHi]
      have : (360 : ℚ) < 360.000001 := by norm_num
      rw [hlast]
      linarith
  refine ⟨hcount, ?_⟩
  rw [Option.isSome_iff_ne_none]
  intro hnone
  have := (foldl_card_none_iff (pyRound3 b) cardinalDictionary none).mp hnone
  have hne : cardinalDictionary.filter (sectorMatches (pyRound3 b)) ≠ [] := by
    intro h
    rw [matchCount, h] at hcount
    simp at hcount
  exact hne this.2

/-- C7 witness: `C7_theorem` instantiated at the concrete bearing 123
(exactly one sector matches and a label is produced). -/
theorem C7_witness : matchCount 123 = 1 ∧ (CheckCardinality 123).isSome :=
  C7_theorem.1 123 (by norm_num) (by norm_num)

/-- C8 counterexample: the claim says the zero-length displacement is an
error condition and not a silently returned numeric value, but the code
silently returns the number `0.0` for it (`math.atan2(0, 0) = 0`, which is
not negative, so it is returned unchanged). -/
theorem C8_counterexample : GetDirection 0 0 = 0 := by
  have h0 : (⟨0, 0⟩ : ℂ) = 0 := by
    rw [Complex.ext_iff]
    simp
  simp [GetDirection, atan2, h0, Complex.arg_zero]

/-- C8 (amended): for every nonzero displacement `(dx, dy)` (easting,
northing) the returned bearing lies in `[0, 360)` and is the angle of the
vector measured clockwise from north — the displacement equals its length
times `(sin, cos)` of the bearing converted to radians; but the zero
displacement is not an error: it silently yields bearing `0`. -/
theorem C8_amended (x y : ℝ) (h : ¬(x = 0 ∧ y = 0)) :
    0 ≤ GetDirection x y ∧ GetDirection x y < 360 ∧
    x = Real.sqrt (x ^ 2 + y ^ 2) * Real.sin (GetDirection x y * (Real.pi / 180)) ∧
    y = Real.sqrt (x ^ 2 + y ^ 2) * Real.cos (GetDirection x y * (Real.pi / 180)) := by
  have hπ : (0:ℝ) < Real.pi := Real.pi_pos
  have hz : (⟨y, x⟩ : ℂ) ≠ 0 := by
    intro h0
    rw [Complex.ext_iff] at h0
    simp only [Complex.zero_re, Complex.zero_im] at h0
    exact h ⟨h0.2, h0.1⟩
  have harg_hi : Complex.arg ⟨y, x⟩ ≤ Real.pi := Complex.arg_le_pi _
  have harg_lo : -Real.pi < Complex.arg ⟨y, x⟩ := Complex.neg_pi_lt_arg _
  have habs : Complex.abs ⟨y, x⟩ = Real.sqrt (x ^ 2 + y ^ 2) := by
    rw [Complex.abs_apply, Complex.normSq_mk]
    congr 1
    ring
  have habs_ne : Complex.abs ⟨y, x⟩ ≠ 0 := Complex.abs.ne_zero hz
  have hsin : Real.sin (Complex.arg ⟨y, x⟩) = x / Complex.abs ⟨y, x⟩ := by
    simpa using Complex.sin_arg (⟨y, x⟩ : ℂ)
  have hcos : Real.cos (Complex.arg ⟨y, x⟩) = y / Complex.abs ⟨y, x⟩ := by
    simpa using Complex.cos_arg hz
  simp only [GetDirection, atan2]
  set A := Complex.arg (⟨y, x⟩ : ℂ) with hA
  have hconv : A * (180 / Real.pi) * (Real.pi / 180) = A := by
    field_simp
  have hdeghi : A * (180 / Real.pi) ≤ 180 := by
    have h1 : A * (180 / Real.pi) ≤ Real.pi * (180 / Real.pi) :=
      mul_le_mul_of_nonneg_right harg_hi (by positivity)
    have h2 : Real.pi * (180 / Real.pi) = 180 := by field_simp
    linarith
  have hdeglo : -180 < A * (180 / Real.pi) := by
    have h1 : -Real.pi * (180 / Real.pi) < A * (180 / Real.pi) :=
      mul_lt_mul_of_pos_right harg_lo (by positivity)
    have h2 : -Real.pi * (180 / Real.pi) = -180 := by
      field_simp
      ring
    linarith
  by_cases hneg : A * (180 / Real.pi) < 0
  · rw [if_pos hneg]
    have hfmod : pyFMod (A * (180 / Real.pi) + 360) 360 = A * (180 / Real.pi) + 360 := by
      rw [pyFMod]
      have hfloor : ⌊(A * (180 / Real.pi) + 360) / 360⌋ = 0 := by
        rw [Int.floor_eq_zero_iff, Set.mem_Ico]
        constructor
        · apply div_nonneg _ (by norm_num)
          linarith
        · rw [div_lt_one (by norm_num)]
          linarith
      rw [hfloor]
      push_cast
      ring
    rw [hfmod]
    have hsin2 : Real.sin ((A * (180 / Real.pi) + 360) * (Real.pi / 180)) = Real.sin A := by
      have he : (A * (180 / Real.pi) + 360) * (Real.pi / 180) = A + 2 * Real.pi := by
        field_simp
        ring
      rw [he, Real.sin_add_two_pi]
    have hcos2 : Real.cos ((A * (180 / Real.pi) + 360) * (Real.pi / 180)) = Real.cos A := by
      have he : (A * (180 / Real.pi) + 360) * (Real.pi / 180) = A + 2 * Real.pi := by
        field_simp
        ring
      rw [he, Real.cos_add_two_pi]
    refine ⟨by linarith, by linarith, ?_, ?_⟩
    · rw [hsin2, ← habs, hsin]
      field_simp
    · rw [hcos2, ← habs, hcos]
      field_simp
  · rw [if_neg hneg]
    push_neg at hneg
    refine ⟨by linarith, by linarith, ?_, ?_⟩
    · rw [hconv, ← habs, hsin]
      field_simp
    · rw [hconv, ← habs, hcos]
      field_simp

/-- C8 witness: `C8_amended` at the unit-east displacement `(1, 0)`. -/
theorem C8_witness :
    0 ≤ GetDirection 1 0 ∧ GetDirection 1 0 < 360 ∧
    (1:ℝ) = Real.sqrt ((1:ℝ) ^ 2 + (0:ℝ) ^ 2) *
      Real.sin (GetDirection 1 0 * (Real.pi / 180)) ∧
    (0:ℝ) = Real.sqrt ((1:ℝ) ^ 2 + (0:ℝ) ^ 2) *
      Real.cos (GetDirection 1 0 * (Real.pi / 180)) :=
  C8_amended 1 0 (by norm_num)

@[simp] lemma exBind_ok {α β : Type} (a : α) (f : α → Except PyErr β) :
    exBind (.ok a) f = f a := rfl

@[simp] lemma exBind_error {α β : Type} (e : PyErr) (f : α → Except PyErr β) :
    exBind (.error e) f = .error e := rfl

@[simp] lemma exOk_ok {α β : Type} (f : α → β) (a : α) :
    exOk f (.ok a) = some (f a) := rfl

@[simp] lemma exOk_error {α β : Type} (f : α → β) (e : PyErr) :
    exOk f (.error e) = none := rfl

lemma tan_three_pi_div_four : Real.tan (3 * Real.pi / 4) = -1 := by
  rw [show 3 * Real.pi / 4 = Real.pi - Real.pi / 4 by ring, Real.tan_pi_sub,
    Real.tan_pi_div_four]

lemma dist2D_horizontal : dist2D 0 0 100 0 = 100 := by
  rw [dist2D, show ((100:ℝ) - 0) ^ 2 + ((0:ℝ) - 0) ^ 2 = 100 ^ 2 by norm_num]
  exact Real.sqrt_sq (by norm_num)

/-- C1: for capture points `(0, 0)` and `(100, 0)` with bearings whose
tangents are `1` and `-1` (so that the two bearing lines meet exactly at
`(50, 50)`), the pairwise triangulation formulas return the planar
intersection `(50, 50)` exactly, and the computed baseline distance between
the two capture points is `100`. -/
theorem C1_theorem :
    intersectX 0 0 (Real.tan (Real.pi / 4)) 100 0 (Real.tan (3 * Real.pi / 4)) = 50 ∧
    intersectY 0 0 (Real.tan (Real.pi / 4))
      (intersectX 0 0 (Real.tan (Real.pi / 4)) 100 0 (Real.tan (3 * Real.pi / 4))) = 50 ∧
    exOk PairRec.drivingDistance
      (pairCalc T0 ⟨1, 0, 0, Real.pi / 4⟩ ⟨2, 100, 0, 3 * Real.pi / 4⟩) = some 100 := by
  have h1 : Real.tan (Real.pi / 4) = 1 := Real.tan_pi_div_four
  have h2 : Real.tan (3 * Real.pi / 4) = -1 := tan_three_pi_div_four
  have hX : intersectX 0 0 (Real.tan (Real.pi / 4)) 100 0
      (Real.tan (3 * Real.pi / 4)) = 50 := by
    rw [intersectX, h1, h2]
    norm_num
  have hY : intersectY 0 0 (Real.tan (Real.pi / 4))
      (intersectX 0 0 (Real.tan (Real.pi / 4)) 100 0
        (Real.tan (3 * Real.pi / 4))) = 50 := by
    rw [intersectY, hX, h1]
    norm_num
  refine ⟨hX, hY, ?_⟩
  simp only [pairCalc, h1, h2]
  norm_num [exOk, dist2D_horizontal]

/-- C2: a concrete failing input for the parallel-bearings case — two
observations with the identical bearing `0.3` make `μ1 - μ2 = 0`, so the
pair computation raises `ZeroDivisionError` (there is no
`ParallelBearingsError` in the source), and the enclosing cluster
computation propagates that exception instead of skipping the pair and
continuing. -/
theorem C2_theorem :
    pairCalc T0 ⟨1, 0, 0, 0.3⟩ ⟨2, 100, 0, 0.3⟩ = .error .zeroDivisionError ∧
    clusterCalc T0 [⟨1, 0, 0, 0.3⟩, ⟨2, 100, 0, 0.3⟩] =
      .error .zeroDivisionError := by
  constructor
  · simp [pairCalc]
  · simp [clusterCalc, clusterAttrs, clusterPairs, pairsOf, exMapM, pairCalc]

/-- C5: the pair computation binds `lat3, lon3 = transform(...)`, but the
transform returns `(longitude, latitude)` (per the repository's own
`ConvertStatePlane` contract), so the reported `latObject` is the geographic
longitude of the intersection and `lonObject` is the geographic latitude —
swapped relative to the claim.  Shown on a pair whose intersection
`(x3, y3) = (70, 30)` makes the two components distinguishable. -/
theorem C5_theorem :
    exOk PairRec.latObject
      (pairCalc T0 ⟨8, 0, 30, 0⟩ ⟨9, 100, 0, 3 * Real.pi / 4⟩) =
      some (geoLongitude T0 30 70) ∧
    exOk PairRec.lonObject
      (pairCalc T0 ⟨8, 0, 30, 0⟩ ⟨9, 100, 0, 3 * Real.pi / 4⟩) =
      some (geoLatitude T0 30 70) ∧
    geoLongitude T0 30 70 = 30 ∧ geoLatitude T0 30 70 = 70 ∧
    (30 : ℝ) ≠ 70 := by
  have h2 : Real.tan (3 * Real.pi / 4) = -1 := tan_three_pi_div_four
  have h0 : Real.tan 0 = 0 := Real.tan_zero
  have hX : intersectX 0 30 0 100 0 (-1) = 70 := by
    rw [intersectX]
    norm_num
  have hY : intersectY 0 30 0 70 = 30 := by
    rw [intersectY]
    norm_num
  simp only [pairCalc, h0, h2]
  norm_num [exOk, hX, hY, T0, geoLongitude, geoLatitude]

lemma strIn_rfl (a : List Char) : strIn a a = true := by
  cases a with
  | nil => rfl
  | cons c cs =>
    have hlead : ∀ b : List Char, leadsList b b = true := by
      intro b
      induction b with
      | nil => rfl
      | cons d ds ih => simp [leadsList, ih]
    simp [strIn, hlead]

lemma C3_eval :
    exOk (fun attrs => attrs.map Attr.meanObjDir) (clusterAttrs T0 clu3) =
      some [Real.pi / 8, 3 * Real.pi / 8, 3 * Real.pi / 8] := by
  have h1 : Real.tan (Real.pi / 4) = 1 := Real.tan_pi_div_four
  have h2 : Real.tan (3 * Real.pi / 4) = -1 := tan_three_pi_div_four
  have s12 : strIn (pyStr 1) (pyStr 2) = false := by decide
  have s13 : strIn (pyStr 1) (pyStr 3) = false := by decide
  have s21 : strIn (pyStr 2) (pyStr 1) = false := by decide
  have s23 : strIn (pyStr 2) (pyStr 3) = false := by decide
  have s31 : strIn (pyStr 3) (pyStr 1) = false := by decide
  have s32 : strIn (pyStr 3) (pyStr 2) = false := by decide
  simp [clusterAttrs, clusterPairs, clu3, obsA3, obsB3, obsC3, pairsOf,
    exMapM, pairCalc, h1, h2, Real.tan_zero, attrFor, exAttrs, exOk,
    attrOf1, attrOf2, strIn_rfl, s12, s13, s21, s23, s31, s32]
  constructor <;> ring

/-- C3 counterexample: on the 3-observation cluster `clu3` (three pairwise
estimates), the aggregation computes its statistics over 3 attributed
samples — one per observation, because `rowdata[oid]` is overwritten by
every later matching pair — not over 6; the spec-side union of attributed
samples has 6 entries, and the bearing mean actually reported
(`7*pi/24`) differs from the mean over the 6-sample union (`pi/3`). -/
theorem C3_counterexample :
    exOk (fun attrs => attrs.length) (clusterAttrs T0 clu3) = some 3 ∧
    exOk (fun prs => (specAttributedSamples clu3 prs).length)
      (clusterPairs T0 clu3) = some 6 ∧
    exOk Record.objDirMean (clusterCalc T0 clu3) = some (7 * Real.pi / 24) ∧
    exOk (fun prs =>
        specSampleMean ((specAttributedSamples clu3 prs).map Attr.meanObjDir))
      (clusterPairs T0 clu3) = some (Real.pi / 3) ∧
    7 * Real.pi / 24 ≠ Real.pi / 3 := by
  have h1 : Real.tan (Real.pi / 4) = 1 := Real.tan_pi_div_four
  have h2 : Real.tan (3 * Real.pi / 4) = -1 := tan_three_pi_div_four
  have s12 : strIn (pyStr 1) (pyStr 2) = false := by decide
  have s13 : strIn (pyStr 1) (pyStr 3) = false := by decide
  have s21 : strIn (pyStr 2) (pyStr 1) = false := by decide
  have s23 : strIn (pyStr 2) (pyStr 3) = false := by decide
  have s31 : strIn (pyStr 3) (pyStr 1) = false := by decide
  have s32 : strIn (pyStr 3) (pyStr 2) = false := by decide
  refine ⟨?_, ?_, ?_, ?_, ?_⟩
  · simp [clusterAttrs, clusterPairs, clu3, obsA3, obsB3, obsC3, pairsOf,
      exMapM, pairCalc, h1, h2, Real.tan_zero, attrFor, exAttrs, exOk,
      strIn_rfl, s12, s13, s21, s23, s31, s32]
  · simp [clusterPairs, clu3, obsA3, obsB3, obsC3, pairsOf, exMapM,
      pairCalc, h1, h2, Real.tan_zero, exOk, specAttributedSamples]
  · simp [clusterCalc, clusterAttrs, clusterPairs, clu3, obsA3, obsB3,
      obsC3, pairsOf, exMapM, pairCalc, h1, h2, Real.tan_zero, attrFor,
      exAttrs, exOk, attrOf1, attrOf2, strIn_rfl, s12, s13, s21, s23, s31,
      s32, stMean, stStdev, pyMean, pyStdev]
    ring
  · simp [clusterPairs, clu3, obsA3, obsB3, obsC3, pairsOf, exMapM,
      pairCalc, h1, h2, Real.tan_zero, exOk, specAttributedSamples,
      specSampleMean, attrOf1, attrOf2]
    ring
  · intro h
    have hπ : (0:ℝ) < Real.pi := Real.pi_pos
    linarith

lemma pyMean_eq_specSampleMean (xs : List ℝ) : pyMean xs = specSampleMean xs :=
  rfl

lemma pyStdev_eq_specSampleStd (xs : List ℝ) : pyStdev xs = specSampleStd xs :=
  rfl

lemma clusterCalc_ok {T : ℝ → ℝ → ℝ × ℝ} {cl : List Obs} {attrs : List Attr}
    (h : clusterAttrs T cl = .ok attrs) (hlen : 2 ≤ attrs.length) :
    clusterCalc T cl = .ok
      { latOIDMean := pyMean (attrs.map Attr.latOID)
        latOIDStd := pyStdev (attrs.map Attr.latOID)
        lonOIDMean := pyMean (attrs.map Attr.lonOID)
        lonOIDStd := pyStdev (attrs.map Attr.lonOID)
        latObjMean := pyMean (attrs.map Attr.latObject)
        latObjStd := pyStdev (attrs.map Attr.latObject)
        lonObjMean := pyMean (attrs.map Attr.lonObject)
        lonObjStd := pyStdev (attrs.map Attr.lonObject)
        drivDistMean := pyMean (attrs.map Attr.drivingDistance)
        drivDistStd := pyStdev (attrs.map Attr.drivingDistance)
        objDistOIDMean := pyMean (attrs.map Attr.objDistanceOID)
        objDistOIDStd := pyStdev (attrs.map Attr.objDistanceOID)
        objDirMean := pyMean (attrs.map Attr.meanObjDir)
        objDirStd := pyStdev (attrs.map Attr.meanObjDir) } := by
  have h0 : ¬ attrs.length = 0 := by omega
  have hl2 : ¬ attrs.length < 2 := by omega
  simp [clusterCalc, h, stMean, stStdev, List.length_map, h0, hl2]

/-- C3 (amended): on the same cluster the aggregation keeps exactly one
attributed sample per observation — the last pairwise estimate (in pair
enumeration order) touching it overwrites the earlier ones, leaving the
bearing samples `[pi/8, 3*pi/8, 3*pi/8]` — and for every reported statistic
(estimated latitude, estimated longitude, bearing, baseline distance, and
point-to-object distance) the reported mean and standard deviation equal the
textbook sample mean and sample standard deviation (denominator N-1) over
those 3 attributed samples. -/
theorem C3_amended :
    exOk (fun attrs => attrs.map Attr.meanObjDir) (clusterAttrs T0 clu3) =
      some [Real.pi / 8, 3 * Real.pi / 8, 3 * Real.pi / 8] ∧
    exOk Record.objDirMean (clusterCalc T0 clu3) =
      some (specSampleMean [Real.pi / 8, 3 * Real.pi / 8, 3 * Real.pi / 8]) ∧
    exOk Record.objDirStd (clusterCalc T0 clu3) =
      some (specSampleStd [Real.pi / 8, 3 * Real.pi / 8, 3 * Real.pi / 8]) ∧
    exOk Record.latObjMean (clusterCalc T0 clu3) =
      exOk (fun attrs => specSampleMean (attrs.map Attr.latObject))
        (clusterAttrs T0 clu3) ∧
    exOk Record.latObjStd (clusterCalc T0 clu3) =
      exOk (fun attrs => specSampleStd (attrs.map Attr.latObject))
        (clusterAttrs T0 clu3) ∧
    exOk Record.lonObjMean (clusterCalc T0 clu3) =
      exOk (fun attrs => specSampleMean (attrs.map Attr.lonObject))
        (clusterAttrs T0 clu3) ∧
    exOk Record.lonObjStd (clusterCalc T0 clu3) =
      exOk (fun attrs => specSampleStd (attrs.map Attr.lonObject))
        (clusterAttrs T0 clu3) ∧
    exOk Record.drivDistMean (clusterCalc T0 clu3) =
      exOk (fun attrs => specSampleMean (attrs.map Attr.drivingDistance))
        (clusterAttrs T0 clu3) ∧
    exOk Record.drivDistStd (clusterCalc T0 clu3) =
      exOk (fun attrs => specSampleStd (attrs.map Attr.drivingDistance))
        (clusterAttrs T0 clu3) ∧
    exOk Record.objDistOIDMean (clusterCalc T0 clu3) =
      exOk (fun attrs => specSampleMean (attrs.map Attr.objDistanceOID))
        (clusterAttrs T0 clu3) ∧
    exOk Record.objDistOIDStd (clusterCalc T0 clu3) =
      exOk (fun attrs => specSampleStd (attrs.map Attr.objDistanceOID))
        (clusterAttrs T0 clu3) ∧
    exOk Record.objDirMean (clusterCalc T0 clu3) =
      exOk (fun attrs => specSampleMean (attrs.map Attr.meanObjDir))
        (clusterAttrs T0 clu3) ∧
    exOk Record.objDirStd (clusterCalc T0 clu3) =
      exOk (fun attrs => specSampleStd (attrs.map Attr.meanObjDir))
        (clusterAttrs T0 clu3) := by
  cases hA : clusterAttrs T0 clu3 with
  | error e =>
    have hcontra := C3_eval
    rw [hA] at hcontra
    simp [exOk] at hcontra
  | ok a =>
    have hmap : a.map Attr.meanObjDir =
        [Real.pi / 8, 3 * Real.pi / 8, 3 * Real.pi / 8] := by
      have h := C3_eval
      rw [hA] at h
      simpa [exOk] using h
    have hlen : 2 ≤ a.length := by
      have h := congrArg List.length hmap
      simp at h
      omega
    have hcalc := clusterCalc_ok hA hlen
    rw [hcalc]
    simp [exOk, hmap, pyMean_eq_specSampleMean, pyStdev_eq_specSampleStd]

/-- C4 counterexample: a five-cluster run in which cluster #3 fails (its two
bearings are parallel) does not yield four successful records and a manifest
entry — the uncaught exception aborts the whole run and nothing at all is
returned (the first two clusters' finished records are discarded with it). -/
theorem C4_counterexample :
    calcAll T0 [kOne, kTwo, kPar, clu3, clu3] = .error .zeroDivisionError ∧
    exOk (fun recs => recs.length) (calcAll T0 [kOne, kTwo, kPar, clu3, clu3]) =
      none := by
  have h1 : Real.tan (Real.pi / 4) = 1 := Real.tan_pi_div_four
  have h2 : Real.tan (3 * Real.pi / 4) = -1 := tan_three_pi_div_four
  have s12 : strIn (pyStr 1) (pyStr 2) = false := by decide
  have s21 : strIn (pyStr 2) (pyStr 1) = false := by decide
  have s45 : strIn (pyStr 4) (pyStr 5) = false := by decide
  have s54 : strIn (pyStr 5) (pyStr 4) = false := by decide
  have h : calcAll T0 [kOne, kTwo, kPar, clu3, clu3] =
      .error .zeroDivisionError := by
    simp [calcAll, clusterCalc, clusterAttrs, clusterPairs, kOne, kTwo,
      kPar, obsA3, obsB3, pairsOf, exMapM, pairCalc, h1, h2, Real.tan_zero,
      attrFor, exAttrs, attrOf1, attrOf2, strIn_rfl, s12, s21, s45, s54,
      stMean, stStdev]
  exact ⟨h, by rw [h]; rfl⟩

/-- C4 (amended): per-cluster failures are not caught anywhere — when the
first cluster of the work list fails with an exception, the whole pipeline
run returns that exception (no records, and there is no failure manifest in
the code at all). -/
theorem C4_amended (T : ℝ → ℝ → ℝ × ℝ) (e : PyErr) (c : List Obs)
    (rest : List (List Obs)) (hc : clusterCalc T c = .error e) :
    calcAll T (c :: rest) = .error e := by
  simp [calcAll, hc]

/-- C4 witness: `C4_amended` on the concrete run whose first cluster has two
identical bearings. -/
theorem C4_witness : calcAll T0 [kPar, clu3] = .error .zeroDivisionError :=
  C4_amended T0 .zeroDivisionError kPar [clu3]
    (by simp [clusterCalc, clusterAttrs, clusterPairs, kPar, pairsOf,
      exMapM, pairCalc])
